import Mathlib

/-!
Verification of the Slack webhook handler (`src/app.py`).

The Python module is shallowly embedded: machine-level byte strings are
`List Nat` (each element a byte value below 256), Python exceptions are an
explicit `Except PyErr` result, JSON values parsed by `json.loads` are the
inductive `JVal`, and the two external collaborators (the secret store and
`json.loads` itself) enter as parameters of `lambda_handler`.  HMAC-SHA256,
the hex digest and UTF-8 encoding are implemented concretely so that
`verify_request` is executable.
-/

/-- Python exception values that the embedded code can raise. -/
inductive PyErr where
  | keyError (k : String)
  | typeError (msg : String)
  | valueError (msg : String)
  deriving DecidableEq, Repr

/-- JSON values as produced by `json.loads`.  Objects are association lists;
they are assumed key-distinct, as `json.loads` keeps a single binding per
key.  (JSON arrays are not modelled: no payload the handler inspects is an
array.) -/
inductive JVal where
  | null
  | bool (b : Bool)
  | num (n : Int)
  | str (s : String)
  | obj (fields : List (String × JVal))

/-- First binding of key `k` in an association list (Python dict lookup). -/
def jlookup (fields : List (String × JVal)) (k : String) : Option JVal :=
  match fields with
  | [] => none
  | (k2, v) :: rest => if k2 = k then some v else jlookup rest k

/-- Python `d[k]` on a parsed JSON value: `KeyError` when the key is absent,
`TypeError` when the value is not a dict. -/
def dict_getitem (v : JVal) (k : String) : Except PyErr JVal :=
  match v with
  | JVal.obj fields =>
    match jlookup fields k with
    | some x => Except.ok x
    | none => Except.error (PyErr.keyError k)
  | _ => Except.error (PyErr.typeError "value is not a dictionary")

/-- Python `k in d` on a parsed JSON value (false on non-dicts). -/
def dict_contains (v : JVal) (k : String) : Bool :=
  match v with
  | JVal.obj fields => (jlookup fields k).isSome
  | _ => false

/-- Is the parsed JSON value a dict?  Models `type(x) is dict`. -/
def isDict (v : JVal) : Bool :=
  match v with
  | JVal.obj _ => true
  | _ => false

/-- Require a Python `str` value. -/
def expectStr (v : JVal) : Except PyErr String :=
  match v with
  | JVal.str s => Except.ok s
  | _ => Except.error (PyErr.typeError "expected a str")

/-! ## Bytes, UTF-8 and hex -/

/-- UTF-8 encoding of one code point, as byte values. -/
def utf8Char (c : Char) : List Nat :=
  let n := c.toNat
  if n < 128 then [n]
  else if n < 2048 then [192 + n / 64, 128 + n % 64]
  else if n < 65536 then [224 + n / 4096, 128 + (n / 64) % 64, 128 + n % 64]
  else [240 + n / 262144, 128 + (n / 4096) % 64, 128 + (n / 64) % 64, 128 + n % 64]

/-- Python `s.encode('utf-8')` / `bytes(s, 'utf-8')`. -/
def utf8 (s : String) : List Nat :=
  (s.data.map utf8Char).flatten

/-- Lowercase hex digit for a value below 16 (defaults keep the result
ASCII for every input). -/
def hexChar (n : Nat) : Char :=
  match n with
  | 0 => '0' | 1 => '1' | 2 => '2' | 3 => '3' | 4 => '4' | 5 => '5' | 6 => '6' | 7 => '7'
  | 8 => '8' | 9 => '9' | 10 => 'a' | 11 => 'b' | 12 => 'c' | 13 => 'd' | 14 => 'e' | 15 => 'f'
  | _ => '0'

/-- Python `digest.hexdigest()`: lowercase hex of a byte string. -/
def hexdigest (bs : List Nat) : String :=
  String.mk ((bs.map (fun b => [hexChar (b / 16), hexChar (b % 16)])).flatten)

/-! ## SHA-256 and HMAC (FIPS 180-4 / RFC 2104) -/

/-- 2^32, the word modulus of SHA-256. -/
def w32 : Nat := 4294967296

def add32 (a b : Nat) : Nat := (a + b) % w32

/-- Right rotation of a 32-bit word. -/
def rotr32 (n x : Nat) : Nat := (x / 2 ^ n + x % 2 ^ n * 2 ^ (32 - n)) % w32

/-- Logical right shift of a 32-bit word. -/
def shr32 (n x : Nat) : Nat := x / 2 ^ n

def chF (e f g : Nat) : Nat := Nat.xor (Nat.land e f) (Nat.land (Nat.xor e (w32 - 1)) g)

def majF (a b c : Nat) : Nat := Nat.xor (Nat.xor (Nat.land a b) (Nat.land a c)) (Nat.land b c)

def bsig0 (x : Nat) : Nat := Nat.xor (Nat.xor (rotr32 2 x) (rotr32 13 x)) (rotr32 22 x)

def bsig1 (x : Nat) : Nat := Nat.xor (Nat.xor (rotr32 6 x) (rotr32 11 x)) (rotr32 25 x)

def ssig0 (x : Nat) : Nat := Nat.xor (Nat.xor (rotr32 7 x) (rotr32 18 x)) (shr32 3 x)

def ssig1 (x : Nat) : Nat := Nat.xor (Nat.xor (rotr32 17 x) (rotr32 19 x)) (shr32 10 x)

/-- The 64 SHA-256 round constants, in decimal. -/
def K256 : List Nat :=
  [1116352408, 1899447441, 3049323471, 3921009573, 961987163, 1508970993, 2453635748, 2870763221,
   3624381080, 310598401, 607225278, 1426881987, 1925078388, 2162078206, 2614888103, 3248222580,
   3835390401, 4022224774, 264347078, 604807628, 770255983, 1249150122, 1555081692, 1996064986,
   2554220882, 2821834349, 2952996808, 3210313671, 3336571891, 3584528711, 113926993, 338241895,
   666307205, 773529912, 1294757372, 1396182291, 1695183700, 1986661051, 2177026350, 2456956037,
   2730485921, 2820302411, 3259730800, 3345764771, 3516065817, 3600352804, 4094571909, 275423344,
   430227734, 506948616, 659060556, 883997877, 958139571, 1322822218, 1537002063, 1747873779,
   1955562222, 2024104815, 2227730452, 2361852424, 2428436474, 2756734187, 3204031479, 3329325298]

/-- The eight SHA-256 working variables. -/
structure Digest8 where
  a : Nat
  b : Nat
  c : Nat
  d : Nat
  e : Nat
  f : Nat
  g : Nat
  h : Nat

/-- The SHA-256 initial hash value, in decimal. -/
def initH : Digest8 :=
  ⟨1779033703, 3144134277, 1013904242, 2773480762, 1359893119, 2600822924, 528734635, 1541459225⟩

/-- Big-endian 32-bit word number `i` of a 64-byte block. -/
def word32At (block : List Nat) (i : Nat) : Nat :=
  (block.getD (4 * i) 0 * 16777216 + block.getD (4 * i + 1) 0 * 65536 +
    block.getD (4 * i + 2) 0 * 256 + block.getD (4 * i + 3) 0) % w32

/-- One extension step of the SHA-256 message schedule. -/
def scheduleStep (w : Array Nat) : Array Nat :=
  w.push (add32 (add32 (ssig1 (w.getD (w.size - 2) 0)) (w.getD (w.size - 7) 0))
    (add32 (ssig0 (w.getD (w.size - 15) 0)) (w.getD (w.size - 16) 0)))

/-- The 64-entry message schedule of a block. -/
def schedule (block : List Nat) : Array Nat :=
  (List.range 48).foldl (fun w _ => scheduleStep w) (((List.range 16).map (word32At block)).toArray)

/-- One SHA-256 compression round. -/
def roundStep (W : Array Nat) (s : Digest8) (t : Nat) : Digest8 :=
  let T1 := add32 (add32 s.h (bsig1 s.e)) (add32 (chF s.e s.f s.g) (add32 (K256.getD t 0) (W.getD t 0)))
  let T2 := add32 (bsig0 s.a) (majF s.a s.b s.c)
  ⟨add32 T1 T2, s.a, s.b, s.c, add32 s.d T1, s.e, s.f, s.g⟩

/-- SHA-256 compression of one 64-byte block. -/
def compressBlock (H : Digest8) (block : List Nat) : Digest8 :=
  let F := (List.range 64).foldl (roundStep (schedule block)) H
  ⟨add32 H.a F.a, add32 H.b F.b, add32 H.c F.c, add32 H.d F.d,
   add32 H.e F.e, add32 H.f F.f, add32 H.g F.g, add32 H.h F.h⟩

/-- Big-endian bytes of a 32-bit word. -/
def bytesOfWord32 (x : Nat) : List Nat :=
  [x / 16777216 % 256, x / 65536 % 256, x / 256 % 256, x % 256]

/-- Big-endian bytes of a 64-bit length field. -/
def bytesOfLen64 (x : Nat) : List Nat :=
  bytesOfWord32 (x / w32) ++ bytesOfWord32 (x % w32)

/-- SHA-256 padding: append 0x80, zero bytes to 56 mod 64, then the bit
length as a 64-bit big-endian integer. -/
def sha256pad (msg : List Nat) : List Nat :=
  msg ++ 128 :: (List.replicate ((119 - msg.length % 64) % 64) 0 ++ bytesOfLen64 (8 * msg.length))

/-- SHA-256 of a byte string, as 32 bytes. -/
def sha256 (msg : List Nat) : List Nat :=
  let p := sha256pad msg
  let F := (List.range (p.length / 64)).foldl (fun H i => compressBlock H ((p.drop (64 * i)).take 64)) initH
  bytesOfWord32 F.a ++ bytesOfWord32 F.b ++ bytesOfWord32 F.c ++ bytesOfWord32 F.d ++
    bytesOfWord32 F.e ++ bytesOfWord32 F.f ++ bytesOfWord32 F.g ++ bytesOfWord32 F.h

/-- HMAC-SHA256 (`hmac.new(key, msg, hashlib.sha256)`).  Block size 64;
0x36 = 54 is the inner pad byte, 0x5c = 92 the outer pad byte. -/
def hmacSha256 (key msg : List Nat) : List Nat :=
  let k0 := if 64 < key.length then sha256 key else key
  let kp := k0 ++ List.replicate (64 - k0.length) 0
  sha256 (kp.map (fun b => Nat.xor b 92) ++ sha256 (kp.map (fun b => Nat.xor b 54) ++ msg))

/-! ## Python `float` parsing (timestamps) and `hmac.compare_digest` -/

/-- Value of a nonempty all-digit character list. -/
def decValAux (cs : List Char) (acc : Nat) : Option Nat :=
  match cs with
  | [] => some acc
  | c :: rest => if c.isDigit then decValAux rest (10 * acc + (c.toNat - 48)) else none

/-- Models Python `float()` on the timestamp strings the spec describes:
optionally signed decimal-integer strings parse to their value.  Other
strings yield `none`; since `float()` itself accepts further forms
(fractional, exponent, underscored digits, inf/infinity/nan, surrounding
whitespace), every theorem about the raising branch restricts itself to
strings that `floatAccepts` rejects, on which `float()` genuinely raises
`ValueError` — the `none` branch alone is never load-bearing. -/
def pyFloat? (s : String) : Option Int :=
  match s.data with
  | [] => none
  | '-' :: c :: rest =>
    if c.isDigit then (decValAux (c :: rest) 0).map (fun n => -Int.ofNat n) else none
  | '+' :: c :: rest =>
    if c.isDigit then (decValAux (c :: rest) 0).map Int.ofNat else none
  | c :: rest =>
    if c.isDigit then (decValAux (c :: rest) 0).map Int.ofNat else none

/-- The characters Python strips around a `float()` argument, ASCII part:
space, tab, newline, vertical tab, form feed, carriage return, and the
0x1c-0x1f separators (all satisfy Python's `str.isspace`). -/
def isPySpace (c : Char) : Bool :=
  c = ' ' || c = '\t' || c = '\n' || c = '\x0b' || c = '\x0c' || c = '\r' ||
    c = '\x1c' || c = '\x1d' || c = '\x1e' || c = '\x1f'

def dropLeadingSpaces (l : List Char) : List Char :=
  match l with
  | [] => []
  | c :: rest => if isPySpace c then dropLeadingSpaces rest else c :: rest

/-- Strip `float()` whitespace from both ends. -/
def stripPySpaces (l : List Char) : List Char :=
  (dropLeadingSpaces (dropLeadingSpaces l).reverse).reverse

/-- Strip one optional leading sign. -/
def stripSign (l : List Char) : List Char :=
  match l with
  | [] => []
  | c :: rest => if c = '+' || c = '-' then rest else l

/-- Consume `(digit | _ digit)*`: the tail of a digit run in which single
underscores may stand between two digits.  Returns the unconsumed rest. -/
def chompMore (l : List Char) : List Char :=
  match l with
  | [] => []
  | c :: rest =>
    if c.isDigit then chompMore rest
    else if c = '_' then
      match rest with
      | d :: rest2 => if d.isDigit then chompMore rest2 else l
      | [] => l
    else l

/-- Consume a nonempty underscore-grouped digit run; `none` when the input
does not start with a digit. -/
def chompDigits (l : List Char) : Option (List Char) :=
  match l with
  | [] => none
  | c :: rest => if c.isDigit then some (chompMore rest) else none

/-- Consume an optional fraction: a dot followed by an optional digit run. -/
def fracTail (l : List Char) : List Char :=
  match l with
  | [] => []
  | c :: rest =>
    if c = '.' then
      match chompDigits rest with
      | some r => r
      | none => rest
    else l

/-- Consume an optional exponent `([eE] [+-]? digits)`; `none` when an `e`
is present but not followed by a valid signed digit run. -/
def expTail (l : List Char) : Option (List Char) :=
  match l with
  | [] => some []
  | c :: rest =>
    if c = 'e' || c = 'E' then
      match rest with
      | [] => none
      | s :: rest2 => if s = '+' || s = '-' then chompDigits rest2 else chompDigits rest
    else some l

/-- Consume a number: `digits [. digits?] exp?` or `. digits exp?`. -/
def numTail (l : List Char) : Option (List Char) :=
  match l with
  | [] => none
  | c :: rest =>
    if c = '.' then
      match chompDigits rest with
      | some r => expTail r
      | none => none
    else
      match chompDigits l with
      | some r => expTail (fracTail r)
      | none => none

/-- The whole remainder is a number. -/
def numForm (l : List Char) : Bool := numTail l == some []

/-- The whole remainder is `inf`, `infinity` or `nan`, case-insensitively. -/
def wordForm (l : List Char) : Bool :=
  let low := l.map Char.toLower
  low == ['i', 'n', 'f'] || low == ['i', 'n', 'f', 'i', 'n', 'i', 't', 'y'] ||
    low == ['n', 'a', 'n']

/-- Recognizer for the strings Python `float()` accepts, on ASCII input:
optional surrounding whitespace, an optional sign, then a number — a digit
run with single underscores between digits, optional fraction and optional
exponent — or one of inf, infinity, nan, case-insensitively.  `float()`
additionally accepts Unicode digits and whitespace, so non-ASCII strings
are outside this recognizer's scope. -/
def floatAccepts (s : String) : Bool :=
  let core := stripSign (stripPySpaces s.data)
  wordForm core || numForm core

/-- Is every character of the string ASCII? -/
def isAscii (s : String) : Bool := s.data.all (fun c => c.toNat < 128)

/-- Python `hmac.compare_digest` on two `str` arguments: a constant-time
equality test, defined only for ASCII strings (`TypeError` otherwise).
Timing is outside the embedding; the result is plain equality. -/
def compare_digest (a b : String) : Except PyErr Bool :=
  if isAscii a && isAscii b then Except.ok (a == b)
  else Except.error (PyErr.typeError "comparing strings with non-ASCII characters is not supported")

/-! ## `verify_request` (src/app.py lines 116-143) -/

/-- `verify_request(slack_signature, slack_timestamp, slack_event_body,
app_signing_secret)`.  `now` stands for `time.time()`; times are modelled
as whole seconds (`Int`). -/
def verify_request (now : Int) (slack_signature slack_timestamp slack_event_body : String)
    (app_signing_secret : String) : Except PyErr Bool :=
  match pyFloat? slack_timestamp with
  | none => Except.error (PyErr.valueError "could not convert string to float")
  | some ts =>
    if 60 * 5 < (now - ts).natAbs then
      -- The request is longer then 5 minutes ago
      Except.ok false
    else
      let sig_basestring := utf8 ("v0:" ++ slack_timestamp ++ ":" ++ slack_event_body)
      let slack_signing_secret := utf8 app_signing_secret
      let my_signature := "v0=" ++ hexdigest (hmacSha256 slack_signing_secret sig_basestring)
      compare_digest my_signature slack_signature

/-! ## The Lambda handler (src/app.py lines 32-98) -/

/-- `is_challenge(slack_event_body)` (src/app.py lines 101-113). -/
def is_challenge (slack_event_body : JVal) : Bool :=
  dict_contains slack_event_body "challenge"

/-- The text transform of src/app.py line 85: Python `text[::-1]`, which
reverses the string code point by code point. -/
def reverse_text (text : String) : String :=
  String.mk text.data.reverse

/-- The HTTP response of one invocation.

Modelled from the spec: `helpers.form_response` lives in the repository's
`helpers` module, which is not under src/; per the spec an outbound
response is an HTTP status code paired with a JSON body
(`\x7bstatusCode: int, body: JSON-string\x7d`). -/
structure HttpResponse where
  statusCode : Nat
  body : JVal

/-- Modelled from the spec: `helpers.form_response(status, body)` builds
the outbound response from the status code and the JSON body. -/
def form_response (statusCode : Nat) (body : JVal) : HttpResponse :=
  ⟨statusCode, body⟩

/-- The API-gateway event: the raw request body and the request headers.
(The AWS proxy event always carries both fields; only header absence is
observable to the claims, so the two fields are modelled as present.) -/
structure ApiEvent where
  body : String
  headers : List (String × String)

/-- One `chat.postMessage` call made through the Slack client: the channel
and text arguments, and the bot token the client was built from. -/
structure ChatPost where
  channel : JVal
  text : String
  token : JVal

/-- What one invocation of the handler did: its result (a response, or the
exception that propagated) and the outbound messages it posted. -/
structure Outcome where
  result : Except PyErr HttpResponse
  posts : List ChatPost

/-- Python `headers[k]` (KeyError when the header is absent). -/
def header_get (headers : List (String × String)) (k : String) : Except PyErr String :=
  match headers with
  | [] => Except.error (PyErr.keyError k)
  | (k2, v) :: rest => if k2 = k then Except.ok v else header_get rest k

/-- The production-only verification step of src/app.py lines 51-55.
`stage_is_prod` is the value of the guard `STAGE is "prod"` (an identity
comparison whose outcome depends on the Python runtime's string interning;
it is therefore carried as a boolean input).  Returns `some` response to
short-circuit with, `none` to continue.  (A non-str `SIGNING_SECRET`
raises `TypeError` here; in Python that error would surface only after the
freshness check inside `verify_request` — no claim distinguishes the two.) -/
def production_gate (now : Int) (stage_is_prod : Bool) (headers : List (String × String))
    (slack_body_raw : String) (secrets : JVal) : Except PyErr (Option HttpResponse) :=
  if stage_is_prod then
    match header_get headers "X-Slack-Signature" with
    | Except.error e => Except.error e
    | Except.ok sig =>
      match header_get headers "X-Slack-Request-Timestamp" with
      | Except.error e => Except.error e
      | Except.ok ts =>
        match dict_getitem secrets "SIGNING_SECRET" with
        | Except.error e => Except.error e
        | Except.ok sv =>
          match expectStr sv with
          | Except.error e => Except.error e
          | Except.ok signing_secret =>
            match verify_request now sig ts slack_body_raw signing_secret with
            | Except.error e => Except.error e
            | Except.ok true => Except.ok none
            | Except.ok false =>
              Except.ok (some (form_response 400 (JVal.obj [("Error", JVal.str "Bad Request Signature")])))
  else Except.ok none

/-- `lambda_handler(api_event, api_context)` (src/app.py lines 32-98).

External collaborators enter as inputs: `json_loads` is Python's
`json.loads` (applied to the secret store's response and to the raw
request body), `get_secrets_result` is the string
`helpers.get_secrets(SECRETS_NAME)` returned, `now` is `time.time()`, and
`stage_is_prod` is the value of the guard `STAGE is "prod"`.  The Slack
client's `api_call("chat.postMessage", ...)` is recorded in the outcome's
`posts` trace.  (A non-str `text` value raises `TypeError` at the
reversal, matching Python's `text[::-1]` on non-sliceable values; list
values, which no claim exercises, would slice.) -/
def lambda_handler (json_loads : String → Except PyErr JVal) (get_secrets_result : String)
    (now : Int) (stage_is_prod : Bool) (api_event : ApiEvent) : Outcome :=
  match json_loads get_secrets_result with
  | Except.error e => ⟨Except.error e, []⟩
  | Except.ok secrets =>
    if isDict secrets then
      match json_loads api_event.body with
      | Except.error e => ⟨Except.error e, []⟩
      | Except.ok slack_body_dict =>
        match production_gate now stage_is_prod api_event.headers api_event.body secrets with
        | Except.error e => ⟨Except.error e, []⟩
        | Except.ok (some resp) => ⟨Except.ok resp, []⟩
        | Except.ok none =>
          if is_challenge slack_body_dict then
            match dict_getitem slack_body_dict "challenge" with
            | Except.error e => ⟨Except.error e, []⟩
            | Except.ok cv =>
              ⟨Except.ok (form_response 200 (JVal.obj [("challenge", cv)])), []⟩
          else
            match dict_getitem slack_body_dict "event" with
            | Except.error e => ⟨Except.error e, []⟩
            | Except.ok slack_event_dict =>
              match dict_getitem secrets "BOT_TOKEN" with
              | Except.error e => ⟨Except.error e, []⟩
              | Except.ok bot_token =>
                if dict_contains slack_body_dict "bot_id" then
                  ⟨Except.ok (form_response 200 (JVal.obj [])), []⟩
                else
                  match dict_getitem slack_event_dict "text" with
                  | Except.error e => ⟨Except.error e, []⟩
                  | Except.ok tv =>
                    match expectStr tv with
                    | Except.error e => ⟨Except.error e, []⟩
                    | Except.ok text =>
                      let reversed_text := reverse_text text
                      match dict_getitem slack_event_dict "channel" with
                      | Except.error e => ⟨Except.error e, []⟩
                      | Except.ok channel_id =>
                        ⟨Except.ok (form_response 200 (JVal.obj [])),
                         [⟨channel_id, reversed_text, bot_token⟩]⟩
    else ⟨Except.error (PyErr.typeError "Secrets response must be a dictionary."), []⟩

/-! ## Helper lemmas -/

theorem hexChar_ascii (n : Nat) : (hexChar n).toNat < 128 := by
  unfold hexChar
  split <;> decide

theorem all_ascii_hexChars (l : List Nat) :
    (l.map (fun b => [hexChar (b / 16), hexChar (b % 16)])).flatten.all
      (fun c => decide (c.toNat < 128)) = true := by
  induction l with
  | nil => rfl
  | cons b rest ih =>
    simp [List.all_append, ih, hexChar_ascii]

theorem isAscii_my_signature (d : List Nat) : isAscii ("v0=" ++ hexdigest d) = true := by
  unfold isAscii hexdigest
  rw [String.data_append, List.all_append]
  have h1 : "v0=".data.all (fun c => decide (c.toNat < 128)) = true := by decide
  rw [h1, Bool.true_and]
  exact all_ascii_hexChars d

theorem compare_digest_eq_ok_true (a b : String) (ha : isAscii a = true) :
    compare_digest a b = Except.ok true ↔ b = a := by
  unfold compare_digest
  rw [ha]
  cases hb : isAscii b with
  | false =>
    simp only [Bool.and_false, Bool.false_eq_true, if_false]
    constructor
    · intro h
      exact Except.noConfusion h
    · intro h
      rw [h, ha] at hb
      cases hb
  | true =>
    simp only [Bool.and_self, if_true, Except.ok.injEq, beq_iff_eq]
    exact eq_comm

theorem digit_ne {c d : Char} (h : c.isDigit = true) (hd : d.isDigit = false) : c ≠ d :=
  fun heq => by rw [heq, hd] at h; exact Bool.noConfusion h

theorem isDigit_not_space {c : Char} (h : c.isDigit = true) : isPySpace c = false := by
  simp only [isPySpace, Bool.or_eq_false_iff, decide_eq_false_iff_not]
  and_intros <;> exact digit_ne h (by decide)

theorem dropLeadingSpaces_eq_self {l : List Char} (h : ∀ c ∈ l, isPySpace c = false) :
    dropLeadingSpaces l = l := by
  cases l with
  | nil => rfl
  | cons c rest => simp [dropLeadingSpaces, h c (List.mem_cons_self c rest)]

theorem stripPySpaces_eq_self {l : List Char} (h : ∀ c ∈ l, isPySpace c = false) :
    stripPySpaces l = l := by
  unfold stripPySpaces
  rw [dropLeadingSpaces_eq_self h,
    dropLeadingSpaces_eq_self (fun c hc => h c (List.mem_reverse.mp hc)),
    List.reverse_reverse]

theorem decValAux_digits (cs : List Char) :
    ∀ (acc n : Nat), decValAux cs acc = some n → ∀ c ∈ cs, c.isDigit = true := by
  induction cs with
  | nil => intro acc n h c hc; cases hc
  | cons d rest ih =>
    intro acc n h c hc
    rw [decValAux] at h
    cases hd : d.isDigit with
    | false => rw [hd] at h; simp at h
    | true =>
      rw [hd] at h
      simp only [if_true] at h
      rcases List.mem_cons.mp hc with rfl | hmem
      · exact hd
      · exact ih _ _ h c hmem

theorem chompMore_digits (l : List Char) (h : ∀ d ∈ l, d.isDigit = true) :
    chompMore l = [] := by
  induction l with
  | nil => rfl
  | cons d rest ih =>
    have hd := h d (List.mem_cons_self d rest)
    rw [chompMore.eq_def]
    simp only [hd, if_true]
    exact ih (fun x hx => h x (List.mem_cons_of_mem d hx))

theorem numForm_digits (c : Char) (rest : List Char) (hc : c.isDigit = true)
    (hrest : ∀ d ∈ rest, d.isDigit = true) : numForm (c :: rest) = true := by
  have hne : c ≠ '.' := digit_ne hc (by decide)
  have h1 : chompDigits (c :: rest) = some (chompMore rest) := by simp [chompDigits, hc]
  have h2 : chompMore rest = [] := chompMore_digits rest hrest
  simp [numForm, numTail, hne, h1, h2, fracTail, expTail]

/-- Soundness of the integer timestamp parser against the full `float()`
grammar: whatever `pyFloat?` parses, `float()` accepts. -/
theorem pyFloat_some_accepts (s : String) (t : Int) (h : pyFloat? s = some t) :
    floatAccepts s = true := by
  unfold pyFloat? at h
  simp only [floatAccepts]
  split at h
  · exact Option.noConfusion h
  · rename_i c rest heq
    rw [heq]
    cases hd : c.isDigit with
    | false => rw [hd] at h; simp at h
    | true =>
      rw [hd] at h
      simp only [if_true] at h
      rcases Option.map_eq_some'.mp h with ⟨n, hn, _⟩
      have hdig := decValAux_digits _ _ _ hn
      have hmem : ∀ x ∈ '-' :: c :: rest, isPySpace x = false := by
        intro x hx
        rcases List.mem_cons.mp hx with rfl | hx2
        · decide
        · exact isDigit_not_space (hdig x hx2)
      rw [stripPySpaces_eq_self hmem]
      have hs : stripSign ('-' :: c :: rest) = c :: rest := by simp [stripSign]
      rw [hs, numForm_digits c rest hd (fun d hdm => hdig d (List.mem_cons_of_mem c hdm)),
        Bool.or_true]
  · rename_i c rest heq
    rw [heq]
    cases hd : c.isDigit with
    | false => rw [hd] at h; simp at h
    | true =>
      rw [hd] at h
      simp only [if_true] at h
      rcases Option.map_eq_some'.mp h with ⟨n, hn, _⟩
      have hdig := decValAux_digits _ _ _ hn
      have hmem : ∀ x ∈ '+' :: c :: rest, isPySpace x = false := by
        intro x hx
        rcases List.mem_cons.mp hx with rfl | hx2
        · decide
        · exact isDigit_not_space (hdig x hx2)
      rw [stripPySpaces_eq_self hmem]
      have hs : stripSign ('+' :: c :: rest) = c :: rest := by simp [stripSign]
      rw [hs, numForm_digits c rest hd (fun d hdm => hdig d (List.mem_cons_of_mem c hdm)),
        Bool.or_true]
  · rename_i c rest hx1 hx2 heq
    rw [heq]
    cases hd : c.isDigit with
    | false => rw [hd] at h; simp at h
    | true =>
      rw [hd] at h
      simp only [if_true] at h
      rcases Option.map_eq_some'.mp h with ⟨n, hn, _⟩
      have hdig := decValAux_digits _ _ _ hn
      have hmem : ∀ x ∈ c :: rest, isPySpace x = false :=
        fun x hx => isDigit_not_space (hdig x hx)
      rw [stripPySpaces_eq_self hmem]
      have hs : stripSign (c :: rest) = c :: rest := by
        simp [stripSign, digit_ne hd (show ('+').isDigit = false by decide),
          digit_ne hd (show ('-').isDigit = false by decide)]
      rw [hs, numForm_digits c rest hd (fun d hdm => hdig d (List.mem_cons_of_mem c hdm)),
        Bool.or_true]

/-! ## Claims about `verify_request` -/

/-- C1: for a timestamp inside the 300-second freshness window,
`verify_request` returns true exactly when the supplied signature equals
`"v0="` followed by the lowercase hex HMAC-SHA256, keyed by the signing
secret, of `"v0:" ++ timestamp ++ ":" ++ rawBody`. -/
theorem C1_verify_request_within_window_iff (now t : Int) (sig ts body secret : String)
    (hts : pyFloat? ts = some t) (hw : (now - t).natAbs ≤ 300) :
    verify_request now sig ts body secret = Except.ok true ↔
      sig = "v0=" ++ hexdigest (hmacSha256 (utf8 secret) (utf8 ("v0:" ++ ts ++ ":" ++ body))) := by
  simp only [verify_request, hts]
  rw [if_neg (by omega)]
  exact compare_digest_eq_ok_true _ _ (isAscii_my_signature _)

theorem C1_witness :
    pyFloat? "0" = some 0 ∧ ((0 : Int) - 0).natAbs ≤ 300 ∧
      (verify_request 0 "v0=a" "0" "b" "s" = Except.ok true ↔
        "v0=a" = "v0=" ++ hexdigest (hmacSha256 (utf8 "s") (utf8 ("v0:" ++ "0" ++ ":" ++ "b")))) :=
  ⟨by decide, by decide, C1_verify_request_within_window_iff 0 0 "v0=a" "0" "b" "s" (by decide) (by decide)⟩

/-- C2: a timestamp whose value differs from the verifier's current time by
more than 300 seconds makes `verify_request` return false, whatever the
signature, body and secret. -/
theorem C2_stale_timestamp_rejected (now t : Int) (sig ts body secret : String)
    (hts : pyFloat? ts = some t) (hw : 300 < (now - t).natAbs) :
    verify_request now sig ts body secret = Except.ok false := by
  simp only [verify_request, hts]
  rw [if_pos (by omega)]

theorem C2_witness :
    pyFloat? "1000" = some 1000 ∧ 300 < ((0 : Int) - 1000).natAbs ∧
      verify_request 0 "v0=a" "1000" "b" "s" = Except.ok false :=
  ⟨by decide, by decide, C2_stale_timestamp_rejected 0 1000 "v0=a" "1000" "b" "s" (by decide) (by decide)⟩

/-- C3 counterexample: on the non-numeric timestamp "five",
`verify_request` raises `ValueError` (from `float(slack_timestamp)`)
instead of returning false. -/
theorem C3_counterexample :
    verify_request 0 "v0=sig" "five" "rawbody" "secret" =
        Except.error (PyErr.valueError "could not convert string to float") ∧
      verify_request 0 "v0=sig" "five" "rawbody" "secret" ≠ Except.ok false :=
  ⟨rfl, fun h => Except.noConfusion h⟩

/-- C3 (amended): every ASCII timestamp string that `float()`'s grammar
rejects (no optionally signed number with optional fraction, exponent and
digit underscores, nor inf/infinity/nan, after stripping surrounding
whitespace) makes `verify_request` raise `ValueError` rather than return a
boolean; in particular it never returns true for such a timestamp. -/
theorem C3_amended_float_rejected_raises (now : Int) (sig ts body secret : String)
    ( _hascii : isAscii ts = true) (hrej : floatAccepts ts = false) :
    verify_request now sig ts body secret =
      Except.error (PyErr.valueError "could not convert string to float") := by
  cases hp : pyFloat? ts with
  | none => simp [verify_request, hp]
  | some t =>
    have hacc := pyFloat_some_accepts ts t hp
    rw [hrej] at hacc
    exact Bool.noConfusion hacc

theorem C3_amended_witness :
    isAscii "oops" = true ∧ floatAccepts "oops" = false ∧
      verify_request 7 "v0=z" "oops" "b" "s" =
        Except.error (PyErr.valueError "could not convert string to float") :=
  ⟨by decide, by decide,
    C3_amended_float_rejected_raises 7 "v0=z" "oops" "b" "s" (by decide) (by decide)⟩

/-- C8: the text transform is an involution: reversing the reversal of any
string yields the string itself. -/
theorem C8_reverse_text_involutive (s : String) : reverse_text (reverse_text s) = s := by
  unfold reverse_text
  simp [List.reverse_reverse]

/-! ## Claims about `lambda_handler`

Concrete fixtures used by the witnesses below. -/

/-- A concrete secret bundle. -/
def secretsW : JVal :=
  JVal.obj [("SIGNING_SECRET", JVal.str "shh"), ("BOT_TOKEN", JVal.str "xoxb")]

/-- A concrete stand-in for `json.loads`: the secret store response
"SECRETS" parses to `secretsW`, every other string to the given body. -/
def loadsWith (body : JVal) (s : String) : Except PyErr JVal :=
  if s = "SECRETS" then Except.ok secretsW else Except.ok body

/-- A stand-in for `json.loads` that parses everything to one value. -/
def loadsConst (v : JVal) (_s : String) : Except PyErr JVal := Except.ok v

/-- C4: with the production guard on, when the request's signature header
fails verification the handler returns status 400 with body
(Error: Bad Request Signature) and posts no outbound message. -/
theorem C4_bad_signature_400 (json_loads : String → Except PyErr JVal)
    (get_secrets_result : String) (now : Int) (api_event : ApiEvent)
    (sf : List (String × JVal)) (bodyVal : JVal) (sig ts sec : String)
    (hsec : json_loads get_secrets_result = Except.ok (JVal.obj sf))
    (hbody : json_loads api_event.body = Except.ok bodyVal)
    (hsig : header_get api_event.headers "X-Slack-Signature" = Except.ok sig)
    (hts : header_get api_event.headers "X-Slack-Request-Timestamp" = Except.ok ts)
    (hss : jlookup sf "SIGNING_SECRET" = some (JVal.str sec))
    (hv : verify_request now sig ts api_event.body sec = Except.ok false) :
    lambda_handler json_loads get_secrets_result now true api_event =
      ⟨Except.ok (form_response 400 (JVal.obj [("Error", JVal.str "Bad Request Signature")])), []⟩ := by
  have hgate : production_gate now true api_event.headers api_event.body (JVal.obj sf) =
      Except.ok (some (form_response 400 (JVal.obj [("Error", JVal.str "Bad Request Signature")]))) := by
    simp [production_gate, hsig, hts, dict_getitem, hss, expectStr, hv]
  simp [lambda_handler, hsec, isDict, hbody, hgate]

theorem C4_witness :
    lambda_handler (loadsWith (JVal.obj [("event", JVal.obj [])])) "SECRETS" 0 true
        ⟨"BODY", [("X-Slack-Signature", "v0=bad"), ("X-Slack-Request-Timestamp", "9999")]⟩ =
      ⟨Except.ok (form_response 400 (JVal.obj [("Error", JVal.str "Bad Request Signature")])), []⟩ :=
  C4_bad_signature_400 (loadsWith (JVal.obj [("event", JVal.obj [])])) "SECRETS" 0
    ⟨"BODY", [("X-Slack-Signature", "v0=bad"), ("X-Slack-Request-Timestamp", "9999")]⟩
    [("SIGNING_SECRET", JVal.str "shh"), ("BOT_TOKEN", JVal.str "xoxb")]
    (JVal.obj [("event", JVal.obj [])]) "v0=bad" "9999" "shh"
    rfl rfl rfl rfl rfl rfl

/-- C5: a body with a top-level challenge field (when verification passes
or is skipped) gets status 200 with body (challenge: v) back and no
outbound message is posted. -/
theorem C5_challenge_echo (json_loads : String → Except PyErr JVal)
    (get_secrets_result : String) (now : Int) (stage_is_prod : Bool) (api_event : ApiEvent)
    (sf bf : List (String × JVal)) (cv : JVal)
    (hsec : json_loads get_secrets_result = Except.ok (JVal.obj sf))
    (hbody : json_loads api_event.body = Except.ok (JVal.obj bf))
    (hgate : production_gate now stage_is_prod api_event.headers api_event.body (JVal.obj sf) =
      Except.ok none)
    (hch : jlookup bf "challenge" = some cv) :
    lambda_handler json_loads get_secrets_result now stage_is_prod api_event =
      ⟨Except.ok (form_response 200 (JVal.obj [("challenge", cv)])), []⟩ := by
  simp [lambda_handler, hsec, hbody, hgate, isDict, is_challenge, dict_contains, dict_getitem, hch]

theorem C5_witness :
    lambda_handler (loadsWith (JVal.obj [("challenge", JVal.str "abc123")])) "SECRETS" 0 false
        ⟨"BODY", []⟩ =
      ⟨Except.ok (form_response 200 (JVal.obj [("challenge", JVal.str "abc123")])), []⟩ :=
  C5_challenge_echo (loadsWith (JVal.obj [("challenge", JVal.str "abc123")])) "SECRETS" 0 false
    ⟨"BODY", []⟩ [("SIGNING_SECRET", JVal.str "shh"), ("BOT_TOKEN", JVal.str "xoxb")]
    [("challenge", JVal.str "abc123")] (JVal.str "abc123")
    rfl rfl rfl rfl

/-- C6 counterexample: the body (bot_id: "B1") has a top-level bot_id and
no challenge, signature verification is skipped, yet the handler does not
return 200 with an empty body: it raises `KeyError "event"`, because the
event sub-object is dereferenced before the bot_id check. -/
theorem C6_counterexample :
    lambda_handler (loadsWith (JVal.obj [("bot_id", JVal.str "B1")])) "SECRETS" 0 false
        ⟨"BODY", []⟩ =
        ⟨Except.error (PyErr.keyError "event"), []⟩ ∧
      lambda_handler (loadsWith (JVal.obj [("bot_id", JVal.str "B1")])) "SECRETS" 0 false
        ⟨"BODY", []⟩ ≠
        ⟨Except.ok (form_response 200 (JVal.obj [])), []⟩ :=
  ⟨rfl, fun h => Except.noConfusion (congrArg Outcome.result h)⟩

/-- C6 (amended): a body with a top-level bot_id, no challenge, and a
top-level event field (when verification passes or is skipped and the
secret bundle holds a BOT_TOKEN) gets status 200 with empty body and no
outbound message is posted. -/
theorem C6_amended_bot_event_ignored (json_loads : String → Except PyErr JVal)
    (get_secrets_result : String) (now : Int) (stage_is_prod : Bool) (api_event : ApiEvent)
    (sf bf : List (String × JVal)) (ev tok : JVal)
    (hsec : json_loads get_secrets_result = Except.ok (JVal.obj sf))
    (hbody : json_loads api_event.body = Except.ok (JVal.obj bf))
    (hgate : production_gate now stage_is_prod api_event.headers api_event.body (JVal.obj sf) =
      Except.ok none)
    (hch : jlookup bf "challenge" = none)
    (hev : jlookup bf "event" = some ev)
    (htok : jlookup sf "BOT_TOKEN" = some tok)
    (hbot : (jlookup bf "bot_id").isSome = true) :
    lambda_handler json_loads get_secrets_result now stage_is_prod api_event =
      ⟨Except.ok (form_response 200 (JVal.obj [])), []⟩ := by
  simp [lambda_handler, hsec, hbody, hgate, isDict, is_challenge, dict_contains, dict_getitem,
    hch, hev, htok, hbot]

theorem C6_amended_witness :
    lambda_handler (loadsWith (JVal.obj [("bot_id", JVal.str "B1"), ("event", JVal.obj [])]))
        "SECRETS" 0 false ⟨"BODY", []⟩ =
      ⟨Except.ok (form_response 200 (JVal.obj [])), []⟩ :=
  C6_amended_bot_event_ignored
    (loadsWith (JVal.obj [("bot_id", JVal.str "B1"), ("event", JVal.obj [])])) "SECRETS" 0 false
    ⟨"BODY", []⟩ [("SIGNING_SECRET", JVal.str "shh"), ("BOT_TOKEN", JVal.str "xoxb")]
    [("bot_id", JVal.str "B1"), ("event", JVal.obj [])] (JVal.obj []) (JVal.str "xoxb")
    rfl rfl rfl rfl rfl rfl rfl

/-- C7: a user-message body (no challenge, no bot_id) whose event carries
text t and channel c makes the handler post exactly one message, the
code-point reversal of t to channel c, and return status 200 with empty
body. -/
theorem C7_user_message_reversed (json_loads : String → Except PyErr JVal)
    (get_secrets_result : String) (now : Int) (stage_is_prod : Bool) (api_event : ApiEvent)
    (sf bf ef : List (String × JVal)) (c tok : JVal) (t : String)
    (hsec : json_loads get_secrets_result = Except.ok (JVal.obj sf))
    (hbody : json_loads api_event.body = Except.ok (JVal.obj bf))
    (hgate : production_gate now stage_is_prod api_event.headers api_event.body (JVal.obj sf) =
      Except.ok none)
    (hch : jlookup bf "challenge" = none)
    (hev : jlookup bf "event" = some (JVal.obj ef))
    (htok : jlookup sf "BOT_TOKEN" = some tok)
    (hbot : jlookup bf "bot_id" = none)
    (htext : jlookup ef "text" = some (JVal.str t))
    (hchan : jlookup ef "channel" = some c) :
    lambda_handler json_loads get_secrets_result now stage_is_prod api_event =
      ⟨Except.ok (form_response 200 (JVal.obj [])), [⟨c, reverse_text t, tok⟩]⟩ := by
  simp [lambda_handler, hsec, hbody, hgate, isDict, is_challenge, dict_contains, dict_getitem,
    expectStr, hch, hev, htok, hbot, htext, hchan]

theorem C7_witness :
    lambda_handler
        (loadsWith (JVal.obj [("event",
          JVal.obj [("text", JVal.str "hello"), ("channel", JVal.str "C1")])]))
        "SECRETS" 0 false ⟨"BODY", []⟩ =
      ⟨Except.ok (form_response 200 (JVal.obj [])),
       [⟨JVal.str "C1", "olleh", JVal.str "xoxb"⟩]⟩ :=
  C7_user_message_reversed
    (loadsWith (JVal.obj [("event",
      JVal.obj [("text", JVal.str "hello"), ("channel", JVal.str "C1")])]))
    "SECRETS" 0 false ⟨"BODY", []⟩
    [("SIGNING_SECRET", JVal.str "shh"), ("BOT_TOKEN", JVal.str "xoxb")]
    [("event", JVal.obj [("text", JVal.str "hello"), ("channel", JVal.str "C1")])]
    [("text", JVal.str "hello"), ("channel", JVal.str "C1")]
    (JVal.str "C1") (JVal.str "xoxb") "hello"
    rfl rfl rfl rfl rfl rfl rfl rfl rfl

/-- C9: when the secret store's response parses to a non-dictionary, the
handler raises `TypeError` at once: no response is produced and no message
is posted, for every stage, headers and body. -/
theorem C9_nondict_secrets_raises (json_loads : String → Except PyErr JVal)
    (get_secrets_result : String) (now : Int) (stage_is_prod : Bool) (api_event : ApiEvent)
    (v : JVal)
    (hsec : json_loads get_secrets_result = Except.ok v) (hv : isDict v = false) :
    lambda_handler json_loads get_secrets_result now stage_is_prod api_event =
      ⟨Except.error (PyErr.typeError "Secrets response must be a dictionary."), []⟩ := by
  simp [lambda_handler, hsec, hv]

theorem C9_witness :
    lambda_handler (loadsConst (JVal.str "not a mapping")) "SECRETS" 0 true ⟨"BODY", []⟩ =
      ⟨Except.error (PyErr.typeError "Secrets response must be a dictionary."), []⟩ :=
  C9_nondict_secrets_raises (loadsConst (JVal.str "not a mapping")) "SECRETS" 0 true
    ⟨"BODY", []⟩ (JVal.str "not a mapping") rfl rfl

/-- C10: a JSON-object body with no top-level challenge and no event field
(once verification passes or is skipped) makes the handler raise
`KeyError "event"` before the bot_id check: no outbound call is made and
no response is produced. -/
theorem C10_missing_event_raises (json_loads : String → Except PyErr JVal)
    (get_secrets_result : String) (now : Int) (stage_is_prod : Bool) (api_event : ApiEvent)
    (sf bf : List (String × JVal))
    (hsec : json_loads get_secrets_result = Except.ok (JVal.obj sf))
    (hbody : json_loads api_event.body = Except.ok (JVal.obj bf))
    (hgate : production_gate now stage_is_prod api_event.headers api_event.body (JVal.obj sf) =
      Except.ok none)
    (hch : jlookup bf "challenge" = none)
    (hev : jlookup bf "event" = none) :
    lambda_handler json_loads get_secrets_result now stage_is_prod api_event =
      ⟨Except.error (PyErr.keyError "event"), []⟩ := by
  simp [lambda_handler, hsec, hbody, hgate, isDict, is_challenge, dict_contains, dict_getitem,
    hch, hev]

theorem C10_witness :
    lambda_handler (loadsWith (JVal.obj [("bot_id", JVal.str "B7")])) "SECRETS" 3 false
        ⟨"BODY", []⟩ =
      ⟨Except.error (PyErr.keyError "event"), []⟩ :=
  C10_missing_event_raises (loadsWith (JVal.obj [("bot_id", JVal.str "B7")])) "SECRETS" 3 false
    ⟨"BODY", []⟩ [("SIGNING_SECRET", JVal.str "shh"), ("BOT_TOKEN", JVal.str "xoxb")]
    [("bot_id", JVal.str "B7")]
    rfl rfl rfl rfl rfl
